import Mathlib

/-!
Verification of the Study-Planner repository's response-assembly,
tool-invocation and chat-routing logic
(`webapp/backend/routers/chat_router.py`, `src/tools/arxiv_tool.py`,
`agents/study_planner/agent.py`).

The Python code is shallowly embedded: Python values reachable from
`json.loads` become the inductive `PyVal`; Python attribute errors and
type errors raised by the duck-typed event inspection become the
`PyErr` error monad; the SQLite store becomes an explicit `DB` record
threaded through the handlers; the external ADK backend and the
external arxiv/YouTube lookups are modelled at their interfaces as
explicit outcome parameters.
-/

namespace StudyPlanner

/-- Python values produced by `json.loads`: `None`, booleans, integers,
strings, lists and dicts (insertion-ordered key/value pairs). -/
inductive PyVal : Type where
  | none : PyVal
  | bool : Bool → PyVal
  | int : Int → PyVal
  | str : String → PyVal
  | list : List PyVal → PyVal
  | dict : List (String × PyVal) → PyVal

/-- Exceptions the duck-typed event inspection can raise (and that the
`except json.JSONDecodeError` handler does NOT catch). -/
inductive PyErr : Type where
  | attributeError : PyErr
  | typeError : PyErr
  | keyError : PyErr
  deriving Repr, DecidableEq

/-- Python truthiness of a value (`if v:`). -/
def pyTruthy : PyVal → Bool
  | .none => false
  | .bool b => b
  | .int n => n ≠ 0
  | .str s => s ≠ ""
  | .list xs => !xs.isEmpty
  | .dict kvs => !kvs.isEmpty

/-- Last-wins association lookup, matching how `json.loads` builds a
`dict` from possibly repeated keys. -/
def dictLookup (kvs : List (String × PyVal)) (k : String) : Option PyVal :=
  (kvs.reverse.find? (fun p => p.1 = k)).map (·.2)

/-- Python `v.get(k)`: defined only on dicts (returning `None` for a
missing key); on every other value the attribute access raises
`AttributeError`. -/
def pyGet (v : PyVal) (k : String) : Except PyErr PyVal :=
  match v with
  | .dict kvs => .ok ((dictLookup kvs k).getD .none)
  | _ => .error .attributeError

/-- Python `v[k]` subscription with a string key: on dicts it returns
the stored value or raises `KeyError`; on other values it raises
`TypeError`. -/
def pySub (v : PyVal) (k : String) : Except PyErr PyVal :=
  match v with
  | .dict kvs =>
    match dictLookup kvs k with
    | Option.some w => .ok w
    | Option.none => .error .keyError
  | _ => .error .typeError

/-- Python iteration `for part in v`: lists yield their elements,
strings their one-character substrings, dicts their keys; `None`,
booleans and integers are not iterable (`TypeError`). -/
def pyIter : PyVal → Except PyErr (List PyVal)
  | .list xs => .ok xs
  | .str s => .ok (s.data.map (fun c => .str (String.mk [c])))
  | .dict kvs => .ok (kvs.map (fun p => PyVal.str p.1))
  | _ => .error .typeError

section JsonParser

/-- Decoded escape for the character following a backslash in a JSON
string literal (`\u` escapes are not needed for this code base). -/
def jsonEscape : Char → Option Char
  | '"' => Option.some '"'
  | '\\' => Option.some '\\'
  | '/' => Option.some '/'
  | 'n' => Option.some '\n'
  | 't' => Option.some '\t'
  | 'r' => Option.some '\r'
  | 'b' => Option.some (Char.ofNat 8)
  | 'f' => Option.some (Char.ofNat 12)
  | _ => Option.none

/-- JSON insignificant whitespace. -/
def jsonWs (c : Char) : Bool :=
  c = ' ' || c = '\t' || c = '\n' || c = '\r'

/-- Scan the body of a JSON string literal (after the opening quote),
returning the decoded string and the rest of the input. -/
def jsonStr : List Char → List Char → Option (String × List Char)
  | acc, '"' :: rest => Option.some (String.mk acc.reverse, rest)
  | acc, '\\' :: c :: rest =>
    match jsonEscape c with
    | Option.some d => jsonStr (d :: acc) rest
    | Option.none => Option.none
  | acc, c :: rest => jsonStr (c :: acc) rest
  | _, [] => Option.none

/-- Scan a run of decimal digits into a natural number. -/
def jsonDigits (acc : Nat) : List Char → (Nat × List Char)
  | c :: rest =>
    if c.isDigit then jsonDigits (acc * 10 + (c.toNat - 48)) rest
    else (acc, c :: rest)
  | [] => (acc, [])

mutual

/-- Fueled recursive-descent parse of one JSON value (model of the
grammar `json.loads` accepts, restricted to the shapes this code base
exchanges: no floats, no `\u` escapes). -/
def jsonVal (fuel : Nat) (input : List Char) : Option (PyVal × List Char) :=
  match fuel with
  | 0 => Option.none
  | fuel + 1 =>
    match input.dropWhile jsonWs with
    | 'n' :: 'u' :: 'l' :: 'l' :: rest => Option.some (.none, rest)
    | 't' :: 'r' :: 'u' :: 'e' :: rest => Option.some (.bool true, rest)
    | 'f' :: 'a' :: 'l' :: 's' :: 'e' :: rest => Option.some (.bool false, rest)
    | '"' :: rest => (jsonStr [] rest).map (fun p => (.str p.1, p.2))
    | '[' :: rest => jsonArr fuel rest true
    | '{' :: rest => jsonObj fuel rest true
    | '-' :: c :: rest =>
      if c.isDigit then
        let p := jsonDigits 0 (c :: rest)
        Option.some (.int (-(p.1 : Int)), p.2)
      else Option.none
    | c :: rest =>
      if c.isDigit then
        let p := jsonDigits 0 (c :: rest)
        Option.some (.int (p.1 : Int), p.2)
      else Option.none
    | [] => Option.none

/-- Parse the elements of a JSON array after `[`; `first` marks that no
element has been consumed yet (so `]` may close immediately). -/
def jsonArr (fuel : Nat) (input : List Char) (first : Bool) : Option (PyVal × List Char) :=
  match fuel with
  | 0 => Option.none
  | fuel + 1 =>
    match input.dropWhile jsonWs with
    | ']' :: rest => if first then Option.some (.list [], rest) else Option.none
    | other =>
      match jsonVal fuel other with
      | Option.none => Option.none
      | Option.some (v, rest) =>
        match rest.dropWhile jsonWs with
        | ']' :: rest' => Option.some (.list [v], rest')
        | ',' :: rest' =>
          match jsonArr fuel rest' false with
          | Option.some (.list vs, rest'') => Option.some (.list (v :: vs), rest'')
          | _ => Option.none
        | _ => Option.none

/-- Parse the members of a JSON object after `\x7b`; `first` marks that
no member has been consumed yet (so `\x7d` may close immediately). -/
def jsonObj (fuel : Nat) (input : List Char) (first : Bool) : Option (PyVal × List Char) :=
  match fuel with
  | 0 => Option.none
  | fuel + 1 =>
    match input.dropWhile jsonWs with
    | '}' :: rest => if first then Option.some (.dict [], rest) else Option.none
    | '"' :: rest =>
      match jsonStr [] rest with
      | Option.none => Option.none
      | Option.some (k, rest') =>
        match rest'.dropWhile jsonWs with
        | ':' :: rest'' =>
          match jsonVal fuel rest'' with
          | Option.none => Option.none
          | Option.some (v, rest''') =>
            match rest'''.dropWhile jsonWs with
            | '}' :: r => Option.some (.dict [(k, v)], r)
            | ',' :: r =>
              match jsonObj fuel r false with
              | Option.some (.dict kvs, r') => Option.some (.dict ((k, v) :: kvs), r')
              | _ => Option.none
            | _ => Option.none
        | _ => Option.none
    | _ => Option.none

end

/-- Model of `json.loads`: parse one JSON document and require only
whitespace to remain; any failure is a `json.JSONDecodeError`. -/
def jsonLoads (s : String) : Except Unit PyVal :=
  match jsonVal (s.length + 1) s.data with
  | Option.some (v, rest) =>
    if (rest.dropWhile jsonWs).isEmpty then .ok v else .error ()
  | Option.none => .error ()

end JsonParser

/-- Python whitespace for `str.strip()`. -/
def pyIsSpace (c : Char) : Bool :=
  c = ' ' || c = '\t' || c = '\n' || c = '\r' || c = Char.ofNat 11 || c = Char.ofNat 12

/-- `str.strip()` on the character list. -/
def stripL (l : List Char) : List Char :=
  ((l.dropWhile pyIsSpace).reverse.dropWhile pyIsSpace).reverse

/-- Python `s.strip()`. -/
def pyStrip (s : String) : String :=
  String.mk (stripL s.data)

/-- Split a character list at every `'\n'`, keeping empty pieces —
the semantics of Python's `s.split("\n")`. -/
def splitNlL : List Char → List (List Char)
  | [] => [[]]
  | '\n' :: rest => [] :: splitNlL rest
  | c :: rest =>
    match splitNlL rest with
    | [] => [[c]]
    | p :: ps => (c :: p) :: ps

/-- Python `response.text.split("\n")`. -/
def pySplitNl (s : String) : List String :=
  (splitNlL s.data).map String.mk

/-- Does the first list start with the second? -/
def startsWithL : List Char → List Char → Bool
  | _, [] => true
  | [], _ :: _ => false
  | c :: cs, p :: ps => c = p && startsWithL cs ps

/-- Python `line.startswith(pre)`. -/
def pyStartsWith (line pre : String) : Bool :=
  startsWithL line.data pre.data

/-- Python slicing `line[n:]` (drop the first `n` characters). -/
def pyDrop (line : String) (n : Nat) : String :=
  String.mk (line.data.drop n)

/-- Text fragments one successfully parsed SSE event contributes, per
chat_router.py lines 221–224: guard `event_data.get("content") and
event_data.get("content").get("parts")`, then iterate
`event_data["content"]["parts"]`, appending `part["text"]` for each
part whose `part.get("text")` is truthy.  Any `AttributeError` /
`TypeError` / `KeyError` raised by the duck typing propagates. -/
def recordTexts (ev : PyVal) : Except PyErr (List String) := do
  let c ← pyGet ev "content"
  if pyTruthy c then
    let c' ← pyGet ev "content"
    let p ← pyGet c' "parts"
    if pyTruthy p then
      let cSub ← pySub ev "content"
      let pSub ← pySub cSub "parts"
      let parts ← pyIter pSub
      parts.foldlM
        (fun acc part => do
          let t ← pyGet part "text"
          if pyTruthy t then
            let tv ← pySub part "text"
            match tv with
            | .str s => pure (acc ++ [s])
            | _ => .error .typeError
          else pure acc)
        []
    else pure []
  else pure []

/-- Processing of one line of the SSE response body: lines not starting
with `"data: "` are ignored; on a `"data: "` line the remainder is fed
to `json.loads`, a `JSONDecodeError` is swallowed (`continue`), and a
successfully parsed event yields its `recordTexts`. -/
def lineTexts (line : String) : Except PyErr (List String) :=
  if pyStartsWith line "data: " then
    match jsonLoads (pyDrop line 6) with
    | .error _ => .ok []
    | .ok ev => recordTexts ev
  else .ok []

/-- All text fragments of the split response body, in arrival order
(the `for line in response.text.split("\n")` loop); an uncaught
exception while processing one line aborts the whole loop. -/
def collectTexts : List String → Except PyErr (List String)
  | [] => .ok []
  | l :: ls => do
    let t ← lineTexts l
    let ts ← collectTexts ls
    pure (t ++ ts)

/-- The fixed fallback message of chat_router.py line 229. -/
def fallbackMsg : String :=
  "I apologize, but I couldn't generate a response. Please try again."

/-- The accumulated `assistant_response` before the final emptiness
check: every appended fragment is followed by `"\n\n"`. -/
def accumText : List String → String
  | [] => ""
  | f :: fs => f ++ "\n\n" ++ accumText fs

/-- Response assembly over the split lines, chat_router.py lines
215–231: accumulate fragments, then `if not assistant_response:`
substitute the fallback, `else` strip. -/
def assembleLines (lines : List String) : Except PyErr String := do
  let frags ← collectTexts lines
  let r := accumText frags
  if r = "" then pure fallbackMsg else pure (pyStrip r)

/-- Full response assembly from the raw response body
(`response.text.split("\n")` then the line loop). -/
def assemble (raw : String) : Except PyErr String :=
  assembleLines (pySplitNl raw)

/-! ### Paragraph structure of an assembled response -/

/-- Split a character list at every non-overlapping, leftmost-first
occurrence of the two-character paragraph break `"\n\n"` — the
semantics of Python's `s.split("\n\n")`. -/
def splitBreakL : List Char → List (List Char)
  | [] => [[]]
  | [c] => [[c]]
  | c :: d :: rest =>
    if c = '\n' ∧ d = '\n' then [] :: splitBreakL rest
    else
      match splitBreakL (d :: rest) with
      | [] => [[c]]
      | p :: ps => (c :: p) :: ps

/-- Number of paragraph-break-separated blocks of a string. -/
def paragraphCount (s : String) : Nat :=
  (splitBreakL s.data).length

/-- Fragments joined by a paragraph break between consecutive
fragments (no trailing break). -/
def interBreak : List (List Char) → List Char
  | [] => []
  | [f] => f
  | f :: fs => f ++ '\n' :: '\n' :: interBreak fs

/-- Character-level image of `accumText`: every fragment is followed
by a paragraph break. -/
def accumB : List (List Char) → List Char
  | [] => []
  | f :: fs => f ++ '\n' :: '\n' :: accumB fs

/-- The first character, if any, is not Python whitespace. -/
def headNoSpace (l : List Char) : Bool :=
  match l.head? with
  | Option.some c => !pyIsSpace c
  | Option.none => true

/-- The last character, if any, is not Python whitespace. -/
def lastNoSpace (l : List Char) : Bool :=
  match l.getLast? with
  | Option.some c => !pyIsSpace c
  | Option.none => true

/-- A fragment that is a single paragraph of its own: non-empty, free
of newlines, and without whitespace at either edge. -/
def singlePara (f : String) : Prop :=
  f.data ≠ [] ∧ '\n' ∉ f.data ∧ headNoSpace f.data = true ∧ lastNoSpace f.data = true

instance (f : String) : Decidable (singlePara f) := by
  unfold singlePara; infer_instance

/-- Number of records (split lines) that carry at least one text
fragment — the quantity the specification's paragraph-count property
refers to. -/
def textBearingCount (lines : List String) : Nat :=
  (lines.filter
    (fun l =>
      match lineTexts l with
      | .ok ts => !ts.isEmpty
      | .error _ => false)).length

/-! ### Concrete protocol inputs from the specification's scenarios -/

/-- Scenario A: two well-formed streamed records. -/
def scenarioA : String :=
  "data: \x7b\"content\":\x7b\"parts\":[\x7b\"text\":\"Hello\"\x7d]\x7d\x7d\n\ndata: \x7b\"content\":\x7b\"parts\":[\x7b\"text\":\"World\"\x7d]\x7d\x7d\n"

/-- A single well-formed record carrying the text `"Hello"`. -/
def lineHello : String :=
  "data: \x7b\"content\":\x7b\"parts\":[\x7b\"text\":\"Hello\"\x7d]\x7d\x7d"

/-- Scenario B: one malformed (non-JSON) record interleaved with the
valid `"Hello"` record. -/
def scenarioB : String :=
  "data: \x7bnot json\x7d\ndata: \x7b\"content\":\x7b\"parts\":[\x7b\"text\":\"Hello\"\x7d]\x7d\x7d"

/-- A record whose body is valid JSON but whose `content` field is a
truthy non-dict, followed by the valid `"Hello"` record. -/
def inputBadContent : String :=
  "data: \x7b\"content\": 5\x7d\ndata: \x7b\"content\":\x7b\"parts\":[\x7b\"text\":\"Hello\"\x7d]\x7d\x7d"

/-- A record whose only text part is the whitespace string `" "`. -/
def inputWsFrag : String :=
  "data: \x7b\"content\":\x7b\"parts\":[\x7b\"text\":\" \"\x7d]\x7d\x7d"

/-- A record with no text-bearing parts at all. -/
def lineEmptyEvent : String :=
  "data: \x7b\x7d"

/-- A single record carrying two text parts `"a"` and `"b"`. -/
def inputTwoParts : String :=
  "data: \x7b\"content\":\x7b\"parts\":[\x7b\"text\":\"a\"\x7d,\x7b\"text\":\"b\"\x7d]\x7d\x7d"

/-- Scenario C: the single-aggregate (non-streaming) payload. -/
def aggregateC : String :=
  "\x7b\"content\":\x7b\"parts\":[\x7b\"text\":\"Plan: Day 1...\"\x7d]\x7d\x7d"

/-! ### Tool invocation layer (`arxiv_tool.py`, `agents/.../agent.py`) -/

/-- One arXiv search result as the `arxiv` library hands it to the
tool — exactly the fields the formatter reads (`published` already
rendered by `strftime`). -/
structure ArxivPaper where
  title : String
  authors : List String
  summary : String
  pdfUrl : String
  published : String

/-- Outcome of the external library calls inside a tool's `try` block:
either the fetched value, or some raised exception rendered by
`str(e)` (the broad `except Exception` catches every exception). -/
inductive Fetch (α : Type) : Type where
  | ok : α → Fetch α
  | exc : String → Fetch α

/-- Python `sep.join(xs)`. -/
def joinWith (sep : String) : List String → String
  | [] => ""
  | [x] => x
  | x :: xs => x ++ sep ++ joinWith sep xs

/-- The formatted block for a found paper (arxiv_tool.py lines 38–50),
before the final `.strip()`. -/
def arxivFormat (paper : ArxivPaper) : String :=
  "\n📄 **Paper Found on Arxiv**\n\n**Title:** " ++ paper.title
    ++ "\n\n**Authors:** " ++ joinWith ", " paper.authors
    ++ "\n\n**Abstract:** " ++ paper.summary
    ++ "\n\n**PDF Link:** " ++ paper.pdfUrl
    ++ "\n\n**Published:** " ++ paper.published ++ "\n"

/-- `search_arxiv` (arxiv_tool.py lines 8–54): the most relevant paper
is formatted and stripped; an empty result list yields a "No papers
found" message; any exception is caught and rendered as an error
string. -/
def search_arxiv (topic : String) (fetched : Fetch (List ArxivPaper)) : String :=
  match fetched with
  | .exc e => "Error searching Arxiv: " ++ e
  | .ok [] => "No papers found for topic: " ++ topic
  | .ok (paper :: _) => pyStrip (arxivFormat paper)

/-- What the YouTube page scrape hands `search_youtube` after its two
`re.findall` calls: the `(videoId, title)` pairs of the main pattern
and the bare video ids of the fallback pattern — or the exception some
call in the `try` block raised. -/
inductive YtFetch : Type where
  | page : List (String × String) → List String → YtFetch
  | exc : String → YtFetch

/-- First-occurrence deduplication, Python `list(dict.fromkeys(ids))`. -/
def dedupFirstAux (seen : List String) : List String → List String
  | [] => []
  | x :: xs =>
    if x ∈ seen then dedupFirstAux seen xs
    else x :: dedupFirstAux (x :: seen) xs

/-- `list(dict.fromkeys(video_ids))`. -/
def dedupFirst (l : List String) : List String :=
  dedupFirstAux [] l

/-- The dedup-and-truncate loop over pattern matches (agent.py lines
72–79): keep the first occurrence of each video id, stopping once
`max_results` entries have been collected (the bound is checked after
appending). -/
def takeUniqAux (maxResults : Nat) (seen : List String)
    (acc : List (String × String)) :
    List (String × String) → List (String × String)
  | [] => acc.reverse
  | (vid, title) :: rest =>
    if vid ∈ seen then takeUniqAux maxResults seen acc rest
    else
      let acc' := (vid, title) :: acc
      if maxResults ≤ acc'.length then acc'.reverse
      else takeUniqAux maxResults (vid :: seen) acc' rest

/-- The `unique_matches` list of agent.py lines 72–79. -/
def takeUniq (maxResults : Nat) (pairs : List (String × String)) :
    List (String × String) :=
  takeUniqAux maxResults [] [] pairs

/-- Python `title.replace('\\u0026', '&')` at the character level
(left-to-right, non-overlapping). -/
def replaceU0026 : List Char → List Char
  | '\\' :: 'u' :: '0' :: '0' :: '2' :: '6' :: rest => '&' :: replaceU0026 rest
  | c :: rest => c :: replaceU0026 rest
  | [] => []

/-- Title cleanup of agent.py line 85:
`title.replace('\\u0026', '&').replace('\\', '')`. -/
def cleanTitle (t : String) : String :=
  String.mk ((replaceU0026 t.data).filter (fun c => c ≠ '\\'))

/-- The header line both YouTube result branches emit. -/
def ytHeader : String :=
  "🎬 **Educational Videos Found on YouTube**\n"

/-- The per-match entry strings (agent.py lines 83–90), numbered from
`startIdx`. -/
def formatMatches (startIdx : Nat) : List (String × String) → List String
  | [] => []
  | (vid, title) :: rest =>
    ("**" ++ toString startIdx ++ ". " ++ cleanTitle title
        ++ "**\n- 🔗 Link: https://www.youtube.com/watch?v=" ++ vid ++ "\n")
      :: formatMatches (startIdx + 1) rest

/-- The per-id entry strings of the fallback branch (agent.py lines
66–67), numbered from `startIdx`. -/
def formatIds (startIdx : Nat) : List String → List String
  | [] => []
  | vid :: rest =>
    ("**" ++ toString startIdx
        ++ ". Video**\n- 🔗 Link: https://www.youtube.com/watch?v=" ++ vid ++ "\n")
      :: formatIds (startIdx + 1) rest

/-- `search_youtube` (agent.py lines 32–95).  `quotePlus` models
`urllib.parse.quote_plus`, used only to build URLs echoed inside
messages. -/
def search_youtube (quotePlus : String → String) (query : String)
    (maxResults : Nat) (fetched : YtFetch) : String :=
  match fetched with
  | .exc e =>
    "Error searching YouTube: " ++ e
      ++ ". You can manually search at: https://www.youtube.com/results?search_query="
      ++ quotePlus query
  | .page pairs videoIds =>
    if pairs.isEmpty then
      if !videoIds.isEmpty then
        pyStrip (joinWith "\n"
          (ytHeader :: formatIds 1 ((dedupFirst videoIds).take maxResults)))
      else
        "No videos found for: " ++ query
          ++ ". Try searching on YouTube: https://www.youtube.com/results?search_query="
          ++ quotePlus (query ++ " tutorial educational")
    else
      pyStrip (joinWith "\n" (ytHeader :: formatMatches 1 (takeUniq maxResults pairs)))

/-! ### Chat router handlers (`webapp/backend/routers/chat_router.py`) -/

/-- A `chat_sessions` row (the fields the handlers touch). -/
structure SessionRow where
  id : Nat
  userId : Nat
  title : String
  updatedAt : Nat
  deriving Repr, DecidableEq

/-- A `chat_messages` row (the fields the handlers write). -/
structure MessageRow where
  sessionId : Nat
  role : String
  content : String
  deriving Repr, DecidableEq

/-- The SQLite store as the handlers see it, with the next
`chat_sessions` rowid (`AUTOINCREMENT` starts at 1). -/
structure DB where
  sessions : List SessionRow
  messages : List MessageRow
  nextSessionId : Nat
  deriving Repr, DecidableEq

/-- The authenticated `current_user` row as the handlers read it. -/
structure User where
  id : Nat
  encryptedApiKey : Option String

/-- Truthiness of `current_user.get("encrypted_api_key")` (absent and
empty both falsy). -/
def apiKeyTruthy (u : User) : Bool :=
  match u.encryptedApiKey with
  | Option.some s => s ≠ ""
  | Option.none => false

/-- The body of a POST `/chat/send` request. -/
structure ChatReq where
  sessionId : Option Nat
  message : String

/-- Truthiness of `data.session_id` (`if not session_id:` — an absent
id and the id `0` are both falsy in Python). -/
def truthySessionId (data : ChatReq) : Option Nat :=
  match data.sessionId with
  | Option.some sid => if sid = 0 then Option.none else Option.some sid
  | Option.none => Option.none

/-- An `HTTPException` raised by a handler. -/
structure HErr where
  status : Nat
  detail : String
  deriving Repr, DecidableEq

/-- A failed send: either an `HTTPException`, or a Python exception
that escapes the handler (FastAPI renders it as a generic 500). -/
inductive SendFail where
  | http : HErr → SendFail
  | unhandled : PyErr → SendFail

/-- Outcome of one `httpx` POST as the handler observes it:
`httpx.RequestError` with `str(e)`, `raise_for_status` raising
`httpx.HTTPStatusError` carrying `e.response.text`, or success. -/
inductive HttpOutcome (α : Type) where
  | requestError : String → HttpOutcome α
  | statusError : String → HttpOutcome α
  | ok : α → HttpOutcome α

/-- The externally observable behaviour of the ADK backend during one
send: the JSON object body of the session-creation response (per the
protocol, session creation returns a JSON object) and the raw SSE
text of the `run_sse` response. -/
structure Upstream where
  createSession : HttpOutcome (List (String × PyVal))
  runSse : HttpOutcome String

/-- A remote call made by the bridge, in order. -/
inductive AdkCall where
  | createSession (adkUserId : String)
  | runSse (adkUserId : String) (adkSessionId : PyVal) (message : String)

/-- Title of a freshly created chat session (chat_router.py line 140):
first 50 characters, with an ellipsis when truncated. -/
def titleOf (message : String) : String :=
  if message.length > 50 then String.mk (message.data.take 50) ++ "..."
  else message

/-- The response model of a successful send. -/
structure ChatResponse where
  response : String
  sessionId : Nat

/-- The fixed `HTTPException`s of chat_router.py. -/
def err400key : HErr :=
  { status := 400, detail := "Please set your Google API key in settings first" }

/-- 404 "Session not found". -/
def err404 : HErr :=
  { status := 404, detail := "Session not found" }

/-- 500 on decryption failure. -/
def err500decrypt : HErr :=
  { status := 500, detail := "Failed to decrypt API key" }

/-- 502 when the created ADK session carries no truthy id. -/
def err502noId : HErr :=
  { status := 502, detail := "Failed to create ADK session" }

/-- 502 on `httpx.RequestError`. -/
def err502connect (msg : String) : HErr :=
  { status := 502, detail := "Failed to connect to ADK backend: " ++ msg }

/-- 502 on `httpx.HTTPStatusError`. -/
def err502backend (body : String) : HErr :=
  { status := 502, detail := "ADK backend error: " ++ body }

/-- `session_data.get("id")`. -/
def lookupId (body : List (String × PyVal)) : PyVal :=
  (dictLookup body "id").getD .none

/-- The session-creation call failed in one of the three ways the
specification enumerates: transport error, non-success status, or a
2xx response whose body carries no (truthy) session identifier. -/
def createSessionFailed (up : Upstream) : Prop :=
  (∃ msg, up.createSession = .requestError msg) ∨
  (∃ body, up.createSession = .statusError body) ∨
  (∃ sessionData, up.createSession = .ok sessionData ∧
    pyTruthy (lookupId sessionData) = false)

/-- Append one `chat_messages` row (`INSERT INTO chat_messages ...`). -/
def addMessage (db : DB) (sid : Nat) (role content : String) : DB :=
  { db with
    messages := db.messages ++ [{ sessionId := sid, role := role, content := content }] }

/-- `UPDATE chat_sessions SET updated_at = CURRENT_TIMESTAMP WHERE id = ?`. -/
def touchSession (db : DB) (sid : Nat) (now : Nat) : DB :=
  { db with
    sessions := db.sessions.map
      (fun r => if r.id = sid then { r with updatedAt := now } else r) }

/-- Lines 136–156 of `send_message`: resolve `data.session_id` into a
session id — creating a fresh session titled from the message when the
given id is falsy, or verifying ownership (404 on failure) otherwise.
Returns the resolved id and the updated store. -/
def resolveSession (u : User) (data : ChatReq) (db : DB) (now : Nat) :
    Except HErr (Nat × DB) :=
  match truthySessionId data with
  | Option.none =>
    .ok (db.nextSessionId,
      { db with
        sessions := db.sessions ++
          [{ id := db.nextSessionId, userId := u.id,
             title := titleOf data.message, updatedAt := now }],
        nextSessionId := db.nextSessionId + 1 })
  | Option.some sid =>
    if db.sessions.any (fun r => r.id = sid && r.userId = u.id) then
      .ok (sid, db)
    else
      .error err404

/-- `send_message` (chat_router.py lines 121–257), over the explicit
store, the outcome of `decrypt_api_key`, and the upstream behaviour.
Returns the final store, the remote calls made in order, and the HTTP
result.  (The `os.environ` write of line 176 is modelled separately by
`credStep`/`credRun`, since its effect is only visible across
concurrently interleaved requests.) -/
def send_message (u : User) (data : ChatReq) (db : DB)
    (decrypted : Except Unit String) (up : Upstream) (now : Nat) :
    DB × List AdkCall × Except SendFail ChatResponse :=
  if ¬ apiKeyTruthy u then
    (db, [], .error (.http err400key))
  else
    match resolveSession u data db now with
    | .error e => (db, [], .error (.http e))
    | .ok (sid, db₁) =>
      let db₂ := addMessage db₁ sid "user" data.message
      match decrypted with
      | .error _ => (db₂, [], .error (.http err500decrypt))
      | .ok _ =>
        let adkUserId := "user_" ++ toString u.id
        match up.createSession with
        | .requestError msg =>
          (db₂, [.createSession adkUserId], .error (.http (err502connect msg)))
        | .statusError body =>
          (db₂, [.createSession adkUserId], .error (.http (err502backend body)))
        | .ok sessionData =>
          let adkSessionId := lookupId sessionData
          if ¬ pyTruthy adkSessionId then
            (db₂, [.createSession adkUserId], .error (.http err502noId))
          else
            match up.runSse with
            | .requestError msg =>
              (db₂, [.createSession adkUserId, .runSse adkUserId adkSessionId data.message],
                .error (.http (err502connect msg)))
            | .statusError body =>
              (db₂, [.createSession adkUserId, .runSse adkUserId adkSessionId data.message],
                .error (.http (err502backend body)))
            | .ok sseText =>
              match assemble sseText with
              | .error e =>
                (db₂, [.createSession adkUserId, .runSse adkUserId adkSessionId data.message],
                  .error (.unhandled e))
              | .ok assistantResponse =>
                (touchSession (addMessage db₂ sid "assistant" assistantResponse) sid now,
                  [.createSession adkUserId, .runSse adkUserId adkSessionId data.message],
                  .ok { response := assistantResponse, sessionId := sid })

/-- `delete_session` (chat_router.py lines 65–83): verify ownership
(404 on failure), then `DELETE FROM chat_sessions WHERE id = ?`.
(SQLite enforces no cascade here by default, so only the session rows
go.) -/
def delete_session (sessionId : Nat) (u : User) (db : DB) :
    DB × Except HErr String :=
  if db.sessions.any (fun r => r.id = sessionId && r.userId = u.id) then
    ({ db with sessions := db.sessions.filter (fun r => !(r.id = sessionId)) },
      .ok "Session deleted")
  else
    (db, .error err404)

/-- `get_messages` (chat_router.py lines 86–118): verify ownership
(404 on failure), then return the session's messages in stored
order. -/
def get_messages (sessionId : Nat) (u : User) (db : DB) :
    Except HErr (List MessageRow) :=
  if db.sessions.any (fun r => r.id = sessionId && r.userId = u.id) then
    .ok (db.messages.filter (fun m => m.sessionId = sessionId))
  else
    .error err404

/-! ### Concurrency model of the credential hand-off (lines 174–176)

Each in-flight request performs, in program order, the process-wide
write `os.environ["GOOGLE_API_KEY"] = api_key` (line 176) and then a
remote send that the generation layer serves by reading that variable.
Two concurrent requests (run ids `false` and `true`) are modelled by
interleaving those two steps per run; `credRun` executes a schedule
and logs, for each run's send, the credential value it observed. -/

/-- One scheduler step: run `r` executes its next credential-relevant
operation (first its environment write, then its send). -/
def credStep (keys : Bool → String) :
    (String × (Bool → Nat) × List (Bool × String)) → Bool →
    (String × (Bool → Nat) × List (Bool × String))
  | (env, pc, log), r =>
    if pc r = 0 then (keys r, fun x => if x = r then 1 else pc x, log)
    else if pc r = 1 then (env, fun x => if x = r then 2 else pc x, log ++ [(r, env)])
    else (env, pc, log)

/-- Run a schedule (list of run ids) from an initial environment
value, returning the final environment, program counters, and the log
of `(run, credential observed by its send)`. -/
def credRun (keys : Bool → String) (sched : List Bool) (env0 : String) :
    String × (Bool → Nat) × List (Bool × String) :=
  sched.foldl (credStep keys) (env0, fun _ => 0, [])

/-- The credentials observed by the sends of a schedule. -/
def credLog (keys : Bool → String) (sched : List Bool) (env0 : String) :
    List (Bool × String) :=
  (credRun keys sched env0).2.2

/-! ### Concrete webapp scenario inputs -/

/-- A caller with a stored (encrypted) API key. -/
def cexUser : User := { id := 1, encryptedApiKey := Option.some "k" }

/-- An empty store. -/
def cexDb : DB := { sessions := [], messages := [], nextSessionId := 1 }

/-- A first message of a thread (no session id yet). -/
def cexReq : ChatReq := { sessionId := Option.none, message := "hi" }

/-- Upstream behaviour whose session-creation response carries no
`id`. -/
def cexUpNoId : Upstream :=
  { createSession := .ok [], runSse := .ok "" }

/-- The store `resolveSession` produces for `cexReq` against `cexDb`:
the freshly created session row, no messages yet. -/
def cexDb1 : DB :=
  { sessions := [{ id := 1, userId := 1, title := "hi", updatedAt := 5 }],
    messages := [], nextSessionId := 2 }

/-- Upstream behaviour answering with remote session id `"s1"`. -/
def cexUpS1 : Upstream :=
  { createSession := .ok [("id", PyVal.str "s1")], runSse := .ok "" }

/-- Upstream behaviour answering with remote session id `"s2"`. -/
def cexUpS2 : Upstream :=
  { createSession := .ok [("id", PyVal.str "s2")], runSse := .ok "" }

/-- The store after the first send of the thread (`cexReq` against
`cexUpS1`). -/
def cexDbAfterFirst : DB :=
  (send_message cexUser cexReq cexDb (.ok "key") cexUpS1 5).1

/-- The second message of the same thread, sent under the chat session
the first send created. -/
def cexReq2 : ChatReq := { sessionId := Option.some 1, message := "more" }

/-- A caller with no stored API key. -/
def keylessUser : User := { id := 1, encryptedApiKey := Option.none }

/-- A store holding one session owned by user 2. -/
def foreignDb : DB :=
  { sessions := [{ id := 7, userId := 2, title := "t", updatedAt := 0 }],
    messages := [], nextSessionId := 8 }

/-! ### Helper lemmas about paragraph splitting and stripping -/

theorem splitBreakL_append (l rest : List Char) (h : '\n' ∉ l) :
    splitBreakL (l ++ '\n' :: '\n' :: rest) = l :: splitBreakL rest := by
  induction l with
  | nil => simp [splitBreakL]
  | cons c l' ih =>
    have hc : ¬(c = '\n' ∧ ('\n' : Char) = '\n') := by
      intro hcc
      exact h (hcc.1 ▸ List.mem_cons_self c l')
    have h' : '\n' ∉ l' := fun hm => h (List.mem_cons_of_mem _ hm)
    have hrec := ih h'
    cases hl : l' ++ '\n' :: '\n' :: rest with
    | nil => simp at hl
    | cons d t =>
      have hc2 : ¬(c = '\n' ∧ d = '\n') := by
        intro hcc
        exact h (hcc.1 ▸ List.mem_cons_self c l')
      rw [List.cons_append, hl, splitBreakL, if_neg hc2, ← hl, hrec]

theorem splitBreakL_no_nl (l : List Char) (h : '\n' ∉ l) :
    splitBreakL l = [l] := by
  induction l with
  | nil => rfl
  | cons c l' ih =>
    cases l' with
    | nil => rfl
    | cons d t =>
      have hc2 : ¬(c = '\n' ∧ d = '\n') := by
        intro hcc
        exact h (hcc.1 ▸ List.mem_cons_self c (d :: t))
      have h' : '\n' ∉ d :: t := fun hm => h (List.mem_cons_of_mem _ hm)
      rw [splitBreakL, if_neg hc2, ih h']

theorem splitBreakL_interBreak (fs : List (List Char)) (h0 : fs ≠ [])
    (h : ∀ f ∈ fs, '\n' ∉ f) :
    splitBreakL (interBreak fs) = fs := by
  induction fs with
  | nil => exact absurd rfl h0
  | cons f fs' ih =>
    cases fs' with
    | nil => exact splitBreakL_no_nl f (h f (List.mem_cons_self f []))
    | cons g gs =>
      rw [interBreak, splitBreakL_append _ _ (h f (List.mem_cons_self f _)),
        ih (List.cons_ne_nil g gs) (fun x hx => h x (List.mem_cons_of_mem _ hx))]
      exact fun hx => List.noConfusion hx

theorem accumText_data (frags : List String) :
    (accumText frags).data = accumB (frags.map (fun f => f.data)) := by
  induction frags with
  | nil => rfl
  | cons f fs ih =>
    have hnl : ("\n\n" : String).data = ['\n', '\n'] := rfl
    simp [accumText, accumB, String.data_append, hnl, ih]

theorem accumB_eq_interBreak (fs : List (List Char)) (h : fs ≠ []) :
    accumB fs = interBreak fs ++ ['\n', '\n'] := by
  induction fs with
  | nil => exact absurd rfl h
  | cons f fs' ih =>
    cases fs' with
    | nil => rfl
    | cons g gs =>
      show f ++ '\n' :: '\n' :: accumB (g :: gs) =
        (f ++ '\n' :: '\n' :: interBreak (g :: gs)) ++ ['\n', '\n']
      rw [ih (List.cons_ne_nil g gs)]
      simp

theorem dropWhile_of_headNoSpace (l : List Char) (h : headNoSpace l = true) :
    l.dropWhile pyIsSpace = l := by
  cases l with
  | nil => rfl
  | cons c t =>
    have : pyIsSpace c = false := by
      simpa [headNoSpace] using h
    simp [List.dropWhile_cons, this]

theorem headNoSpace_reverse (l : List Char) (h : lastNoSpace l = true) :
    headNoSpace l.reverse = true := by
  unfold headNoSpace
  rw [List.head?_reverse]
  simpa [lastNoSpace] using h

theorem stripL_padded (m : List Char) (hne : m ≠ []) (hh : headNoSpace m = true)
    (hl : lastNoSpace m = true) :
    stripL (m ++ ['\n', '\n']) = m := by
  unfold stripL
  have h1 : (m ++ ['\n', '\n']).dropWhile pyIsSpace = m ++ ['\n', '\n'] := by
    apply dropWhile_of_headNoSpace
    cases m with
    | nil => exact absurd rfl hne
    | cons c t => simpa [headNoSpace] using hh
  rw [h1, List.reverse_append]
  have h2 : (['\n', '\n'] : List Char).reverse ++ m.reverse =
      '\n' :: '\n' :: m.reverse := rfl
  rw [h2]
  have h3 : pyIsSpace '\n' = true := rfl
  rw [List.dropWhile_cons, h3]
  simp only [if_true]
  rw [List.dropWhile_cons, h3]
  simp only [if_true]
  rw [dropWhile_of_headNoSpace _ (headNoSpace_reverse m hl), List.reverse_reverse]

theorem interBreak_ne_nil (fs : List (List Char)) (h0 : fs ≠ [])
    (h : ∀ f ∈ fs, f ≠ []) : interBreak fs ≠ [] := by
  cases fs with
  | nil => exact absurd rfl h0
  | cons f fs' =>
    cases fs' with
    | nil => exact h f (List.mem_cons_self f [])
    | cons g gs =>
      show f ++ '\n' :: '\n' :: interBreak (g :: gs) ≠ []
      simp

theorem interBreak_headNoSpace (fs : List (List Char)) (h0 : fs ≠ [])
    (h : ∀ f ∈ fs, f ≠ [] ∧ headNoSpace f = true) :
    headNoSpace (interBreak fs) = true := by
  cases fs with
  | nil => exact absurd rfl h0
  | cons f fs' =>
    obtain ⟨hf, hhf⟩ := h f (List.mem_cons_self f fs')
    cases fs' with
    | nil => exact hhf
    | cons g gs =>
      show headNoSpace (f ++ '\n' :: '\n' :: interBreak (g :: gs)) = true
      cases f with
      | nil => exact absurd rfl hf
      | cons c t => simpa [headNoSpace] using hhf

theorem interBreak_lastNoSpace (fs : List (List Char)) (h0 : fs ≠ [])
    (h : ∀ f ∈ fs, f ≠ [] ∧ lastNoSpace f = true) :
    lastNoSpace (interBreak fs) = true := by
  induction fs with
  | nil => exact absurd rfl h0
  | cons f fs' ih =>
    cases fs' with
    | nil => exact (h f (List.mem_cons_self f [])).2
    | cons g gs =>
      have hrest : interBreak (g :: gs) ≠ [] :=
        interBreak_ne_nil _ (List.cons_ne_nil g gs)
          (fun x hx => (h x (List.mem_cons_of_mem _ hx)).1)
      have hix := ih (List.cons_ne_nil g gs) (fun x hx => h x (List.mem_cons_of_mem _ hx))
      show lastNoSpace (f ++ '\n' :: '\n' :: interBreak (g :: gs)) = true
      unfold lastNoSpace
      have e1 : f ++ '\n' :: '\n' :: interBreak (g :: gs) =
          f ++ (['\n', '\n'] ++ interBreak (g :: gs)) := rfl
      rw [e1, List.getLast?_append_of_ne_nil _ (by simp),
        List.getLast?_append_of_ne_nil _ hrest]
      unfold lastNoSpace at hix
      exact hix

theorem accumText_ne_nil (f : String) (fs : List String) :
    accumText (f :: fs) ≠ "" := by
  intro hcontra
  have hd := congrArg String.data hcontra
  rw [accumText_data] at hd
  have : (accumB (f.data :: fs.map (fun x => x.data))) =
      f.data ++ '\n' :: '\n' :: accumB (fs.map (fun x => x.data)) := rfl
  rw [List.map_cons, this] at hd
  simp at hd

theorem assembleLines_ok (lines : List String) (f : String) (fs : List String)
    (h : collectTexts lines = .ok (f :: fs)) :
    assembleLines lines = .ok (pyStrip (accumText (f :: fs))) := by
  unfold assembleLines
  rw [h]
  show (if accumText (f :: fs) = "" then pure fallbackMsg
    else pure (pyStrip (accumText (f :: fs))) : Except PyErr String) =
    .ok (pyStrip (accumText (f :: fs)))
  rw [if_neg (accumText_ne_nil f fs)]
  rfl

theorem stripped_paragraphs (frags : List String) (h0 : frags ≠ [])
    (h : ∀ f ∈ frags, singlePara f) :
    paragraphCount (pyStrip (accumText frags)) = frags.length := by
  have hmap0 : frags.map (fun f => f.data) ≠ [] := by
    cases frags with
    | nil => exact absurd rfl h0
    | cons f fs => simp
  have hne : ∀ l ∈ frags.map (fun f => f.data), l ≠ [] := by
    intro l hl
    obtain ⟨f, hf, rfl⟩ := List.mem_map.mp hl
    exact (h f hf).1
  have hnl : ∀ l ∈ frags.map (fun f => f.data), '\n' ∉ l := by
    intro l hl
    obtain ⟨f, hf, rfl⟩ := List.mem_map.mp hl
    exact (h f hf).2.1
  have hdata : (pyStrip (accumText frags)).data =
      interBreak (frags.map (fun f => f.data)) := by
    show stripL (accumText frags).data = _
    rw [accumText_data, accumB_eq_interBreak _ hmap0]
    apply stripL_padded
    · exact interBreak_ne_nil _ hmap0 hne
    · apply interBreak_headNoSpace _ hmap0
      intro l hl
      obtain ⟨f, hf, rfl⟩ := List.mem_map.mp hl
      exact ⟨(h f hf).1, (h f hf).2.2.1⟩
    · apply interBreak_lastNoSpace _ hmap0
      intro l hl
      obtain ⟨f, hf, rfl⟩ := List.mem_map.mp hl
      exact ⟨(h f hf).1, (h f hf).2.2.2⟩
  unfold paragraphCount
  rw [hdata, splitBreakL_interBreak _ hmap0 hnl, List.length_map]

theorem except_bind_ok {ε α β : Type} (a : α) (f : α → Except ε β) :
    (Except.ok a >>= f) = f a := rfl

theorem except_bind_err {ε α β : Type} (e : ε) (f : α → Except ε β) :
    ((Except.error e : Except ε α) >>= f) = Except.error e := rfl

theorem collectTexts_append_ok (ls₁ ls₂ f₁ f₂ : List String)
    (h₁ : collectTexts ls₁ = .ok f₁) (h₂ : collectTexts ls₂ = .ok f₂) :
    collectTexts (ls₁ ++ ls₂) = .ok (f₁ ++ f₂) := by
  induction ls₁ generalizing f₁ with
  | nil =>
    rw [collectTexts] at h₁
    cases h₁
    simpa using h₂
  | cons l ls ih =>
    cases hlt : lineTexts l with
    | error e =>
      rw [collectTexts, hlt, except_bind_err] at h₁
      cases h₁
    | ok t =>
      rw [collectTexts, hlt, except_bind_ok] at h₁
      cases hct : collectTexts ls with
      | error e =>
        rw [hct, except_bind_err] at h₁
        cases h₁
      | ok ts =>
        rw [hct, except_bind_ok] at h₁
        cases h₁
        rw [List.cons_append, collectTexts, hlt, except_bind_ok,
          ih ts hct, except_bind_ok]
        show Except.ok (t ++ (ts ++ f₂)) = Except.ok (t ++ ts ++ f₂)
        rw [List.append_assoc]

theorem assembleLines_fallback_of_nil (lines : List String)
    (h : collectTexts lines = .ok []) :
    assembleLines lines = .ok fallbackMsg := by
  unfold assembleLines
  rw [h, except_bind_ok]
  rfl

theorem collectTexts_no_data (lines : List String)
    (h : ∀ l ∈ lines, pyStartsWith l "data: " = false) :
    collectTexts lines = .ok [] := by
  induction lines with
  | nil => rfl
  | cons l ls ih =>
    have hl : lineTexts l = .ok [] := by
      unfold lineTexts
      rw [if_neg]
      simp [h l (List.mem_cons_self l ls)]
    rw [collectTexts, hl, except_bind_ok,
      ih (fun x hx => h x (List.mem_cons_of_mem _ hx)), except_bind_ok]
    rfl

theorem stripL_ne_nil (l : List Char) (c : Char) (hc : c ∈ l)
    (hns : pyIsSpace c = false) : stripL l ≠ [] := by
  intro hcontra
  unfold stripL at hcontra
  rw [List.reverse_eq_nil_iff, List.dropWhile_eq_nil_iff] at hcontra
  have hmem : c ∈ l.dropWhile pyIsSpace := by
    have hsplit := List.takeWhile_append_dropWhile (p := pyIsSpace) (l := l)
    rw [← hsplit] at hc
    rcases List.mem_append.mp hc with htk | hdp
    · exact absurd (List.mem_takeWhile_imp htk) (by simp [hns])
    · exact hdp
  exact absurd (hcontra c (List.mem_reverse.mpr hmem)) (by simp [hns])

theorem pyStrip_ne_empty (s : String) (c : Char) (hc : c ∈ s.data)
    (hns : pyIsSpace c = false) : pyStrip s ≠ "" := by
  intro hcontra
  have hd := congrArg String.data hcontra
  exact stripL_ne_nil s.data c hc hns hd

theorem append_ne_empty_of_left (s t : String) (h : s.data ≠ []) :
    s ++ t ≠ "" := by
  intro hcontra
  have hd := congrArg String.data hcontra
  rw [String.data_append] at hd
  exact h (List.append_eq_nil.mp hd).1

theorem mem_data_append_left (s t : String) (c : Char) (h : c ∈ s.data) :
    c ∈ (s ++ t).data := by
  rw [String.data_append]
  exact List.mem_append_left _ h

theorem data_append_ne_nil_left (s t : String) (h : s.data ≠ []) :
    (s ++ t).data ≠ [] := by
  rw [String.data_append]
  intro hc
  exact h (List.append_eq_nil.mp hc).1

theorem mem_joinWith_first (sep x : String) (rest : List String) (c : Char)
    (h : c ∈ x.data) : c ∈ (joinWith sep (x :: rest)).data := by
  cases rest with
  | nil => exact h
  | cons y ys => exact mem_data_append_left _ _ _ (mem_data_append_left _ _ _ h)

/-! ### Claim theorems: response assembly (C1–C5) -/

/-- C1: on a streaming input whose records all process cleanly, each
`data: `-prefixed line contributes its non-empty text fragments, the
fragments of consecutive line groups are concatenated in arrival
order, the assembled response is their concatenation with a paragraph
break after each fragment and surrounding whitespace trimmed; and
Scenario A assembles to exactly `"Hello\n\nWorld"`. -/
theorem streaming_assembly_correct :
    (∀ lines frags, collectTexts lines = .ok frags → frags ≠ [] →
      assembleLines lines = .ok (pyStrip (accumText frags))) ∧
    (∀ ls₁ ls₂ f₁ f₂, collectTexts ls₁ = .ok f₁ → collectTexts ls₂ = .ok f₂ →
      collectTexts (ls₁ ++ ls₂) = .ok (f₁ ++ f₂)) ∧
    assemble scenarioA = .ok "Hello\n\nWorld" := by
  refine ⟨?_, collectTexts_append_ok, rfl⟩
  intro lines frags h h0
  cases frags with
  | nil => exact absurd rfl h0
  | cons f fs => exact assembleLines_ok lines f fs h

/-- Witness for C1 at a concrete input: the single `"Hello"` record. -/
theorem streaming_assembly_correct_witness :
    assembleLines [lineHello] = .ok (pyStrip (accumText ["Hello"])) :=
  streaming_assembly_correct.1 [lineHello] ["Hello"] rfl (by decide)

/-- C2 counterexample: on a record whose only text part is `" "` the
accumulated text is non-empty, so the fallback branch is skipped and
the assembler returns the empty string after stripping — refuting both
the trim-before-test order and the claim that `assemble` never returns
an empty string. -/
theorem assemble_empty_output_cex :
    assemble inputWsFrag = .ok "" ∧ ("" : String) ≠ fallbackMsg :=
  ⟨rfl, by decide⟩

/-- C2 (amended): the assembler tests the *untrimmed* accumulation for
emptiness; whenever no fragment at all was appended (every input with
zero text-bearing records) it returns exactly the fixed fallback
string. -/
theorem assemble_fallback_on_no_fragments :
    ∀ lines, collectTexts lines = .ok [] → assembleLines lines = .ok fallbackMsg :=
  assembleLines_fallback_of_nil

/-- Witness for C2 at a concrete input: a record with no text parts. -/
theorem assemble_fallback_on_no_fragments_witness :
    assembleLines [lineEmptyEvent] = .ok fallbackMsg :=
  assemble_fallback_on_no_fragments [lineEmptyEvent] rfl

/-- C3 counterexample: a record whose body is valid JSON with a truthy
non-dict `content` field raises an uncaught `AttributeError`, aborting
the whole assembly instead of being skipped — the well-formed
`"Hello"` record that follows it is never delivered. -/
theorem malformed_record_aborts_cex :
    assemble inputBadContent = .error PyErr.attributeError := rfl

/-- C3 (amended): only records that fail *JSON parsing* are skipped
silently (the `except json.JSONDecodeError` handler): a `data: ` line
whose body does not parse contributes nothing and assembly continues,
as in Scenario B; but a record that parses to JSON of the wrong shape
can raise an uncaught error that aborts the whole assembly. -/
theorem parse_failure_skipped :
    (∀ l ls, pyStartsWith l "data: " = true → jsonLoads (pyDrop l 6) = .error () →
      collectTexts (l :: ls) = collectTexts ls) ∧
    assemble scenarioB = .ok "Hello" := by
  constructor
  · intro l ls h1 h2
    have hl : lineTexts l = .ok [] := by
      unfold lineTexts
      rw [if_pos h1, h2]
    rw [collectTexts, hl, except_bind_ok]
    cases hct : collectTexts ls with
    | error e => rw [except_bind_err]
    | ok ts => rw [except_bind_ok]; rfl
  · rfl

/-- Witness for C3 at a concrete input: the malformed Scenario B line
is skipped. -/
theorem parse_failure_skipped_witness :
    collectTexts ["data: \x7bnot json\x7d"] = collectTexts [] :=
  parse_failure_skipped.1 "data: \x7bnot json\x7d" [] rfl rfl

/-- C4 counterexample: a single record carrying two text parts yields
two paragraphs, while only one record carries text — the paragraph
count follows fragments, not records. -/
theorem paragraph_count_cex :
    assemble inputTwoParts = .ok "a\n\nb" ∧
    textBearingCount (pySplitNl inputTwoParts) = 1 ∧
    paragraphCount "a\n\nb" = 2 ∧
    paragraphCount "a\n\nb" ≠ textBearingCount (pySplitNl inputTwoParts) :=
  ⟨rfl, rfl, rfl, by decide⟩

/-- C4 (amended): for well-formed streaming inputs the assembled
response has exactly one paragraph per collected non-empty text
fragment (fragments that are themselves single paragraphs), in arrival
order — i.e. the paragraph count equals the total number of text
fragments across all records, not the number of text-bearing
records. -/
theorem paragraphs_follow_fragments :
    ∀ lines frags, collectTexts lines = .ok frags → frags ≠ [] →
      (∀ f ∈ frags, singlePara f) →
      ∃ out, assembleLines lines = .ok out ∧ paragraphCount out = frags.length := by
  intro lines frags h h0 hs
  cases frags with
  | nil => exact absurd rfl h0
  | cons f fs =>
    exact ⟨pyStrip (accumText (f :: fs)), assembleLines_ok lines f fs h,
      stripped_paragraphs (f :: fs) (List.cons_ne_nil f fs) hs⟩

/-- Witness for C4 at a concrete input: the two-part record yields two
paragraphs. -/
theorem paragraphs_follow_fragments_witness :
    ∃ out, assembleLines (pySplitNl inputTwoParts) = .ok out ∧
      paragraphCount out = 2 :=
  paragraphs_follow_fragments (pySplitNl inputTwoParts) ["a", "b"] rfl
    (by decide) (by decide)

/-- C5 counterexample: the Scenario C aggregate payload contains no
`data: `-prefixed line, so the assembler extracts nothing and returns
the fallback string instead of `"Plan: Day 1..."`. -/
theorem aggregate_form_cex :
    assemble aggregateC = .ok fallbackMsg ∧ fallbackMsg ≠ "Plan: Day 1..." :=
  ⟨rfl, by decide⟩

/-- C5 (amended): the assembler implements only the streaming form —
on any raw input none of whose split lines starts with `"data: "`
(in particular any single-aggregate JSON document) it collects no
fragments and returns the fixed fallback string. -/
theorem aggregate_form_not_extracted :
    ∀ raw, (∀ l ∈ pySplitNl raw, pyStartsWith l "data: " = false) →
      assemble raw = .ok fallbackMsg := by
  intro raw h
  exact assembleLines_fallback_of_nil _ (collectTexts_no_data _ h)

/-- Witness for C5 at the concrete Scenario C payload. -/
theorem aggregate_form_not_extracted_witness :
    assemble aggregateC = .ok fallbackMsg :=
  aggregate_form_not_extracted aggregateC (by decide)

/-! ### Claim theorem: tool invocation (C6) -/

/-- C6: neither lookup tool lets a failure escape its boundary — for
every query and every outcome of the external calls (including any
raised exception, rendered by the broad `except Exception` handlers,
and the empty-result cases) both `search_arxiv` and `search_youtube`
return a non-empty explanatory text string. -/
theorem tool_never_raises :
    (∀ topic fetched, search_arxiv topic fetched ≠ "") ∧
    (∀ qp query maxResults fetched,
      search_youtube qp query maxResults fetched ≠ "") := by
  constructor
  · intro topic fetched
    match fetched with
    | .exc e =>
      show "Error searching Arxiv: " ++ e ≠ ""
      exact append_ne_empty_of_left _ _ (by decide)
    | .ok [] =>
      show "No papers found for topic: " ++ topic ≠ ""
      exact append_ne_empty_of_left _ _ (by decide)
    | .ok (paper :: rest) =>
      show pyStrip (arxivFormat paper) ≠ ""
      apply pyStrip_ne_empty _ '📄'
      · unfold arxivFormat
        iterate 10 apply mem_data_append_left
        decide
      · decide
  · intro qp query maxResults fetched
    match fetched with
    | .exc e =>
      show "Error searching YouTube: " ++ e
          ++ ". You can manually search at: https://www.youtube.com/results?search_query="
          ++ qp query ≠ ""
      exact append_ne_empty_of_left _ _
        (data_append_ne_nil_left _ _ (data_append_ne_nil_left _ _ (by decide)))
    | .page pairs videoIds =>
      show (if pairs.isEmpty then _ else _) ≠ ""
      by_cases hp : pairs.isEmpty
      · rw [if_pos hp]
        by_cases hv : videoIds.isEmpty
        · rw [if_neg (by simp [hv])]
          exact append_ne_empty_of_left _ _
            (data_append_ne_nil_left _ _ (data_append_ne_nil_left _ _ (by decide)))
        · rw [if_pos (by simp [hv])]
          apply pyStrip_ne_empty _ '🎬'
          · exact mem_joinWith_first _ _ _ _ (by decide)
          · decide
      · rw [if_neg hp]
        apply pyStrip_ne_empty _ '🎬'
        · exact mem_joinWith_first _ _ _ _ (by decide)
        · decide

/-! ### Helper lemma for the session-resolution step -/

theorem resolveSession_characterized (u : User) (data : ChatReq) (db : DB)
    (now : Nat) (sid : Nat) (db₁ : DB)
    (h : resolveSession u data db now = .ok (sid, db₁)) :
    db₁.messages = db.messages ∧
    (db₁.sessions = db.sessions ∨
      db₁.sessions = db.sessions ++
        [{ id := db.nextSessionId, userId := u.id,
           title := titleOf data.message, updatedAt := now }]) := by
  unfold resolveSession at h
  split at h
  · cases h
    exact ⟨rfl, Or.inr rfl⟩
  · split at h
    · cases h
      exact ⟨rfl, Or.inl rfl⟩
    · cases h

/-- Witness for C6 at concrete inputs: an exception outcome for the
arXiv tool and an empty scrape result for the YouTube tool. -/
theorem tool_never_raises_witness :
    search_arxiv "quantum physics" (Fetch.exc "connection reset") ≠ "" ∧
    search_youtube (fun q => q) "algebra" 3 (YtFetch.page [] []) ≠ "" :=
  ⟨tool_never_raises.1 "quantum physics" (Fetch.exc "connection reset"),
    tool_never_raises.2 (fun q => q) "algebra" 3 (YtFetch.page [] [])⟩

/-! ### Claim theorems: session bridge and persistence (C7–C10) -/

/-- C7 counterexample: on the first message of a thread (no session id
in the request) an upstream session-creation failure leaves a newly
created chat-session row persisted in addition to the already-saved
user message — the user message is not the only persisted state
change. -/
theorem upstream_create_failure_cex :
    (send_message cexUser cexReq cexDb (.ok "key") cexUpNoId 5).2.2 =
      .error (.http err502noId) ∧
    err502noId.status = 502 ∧
    (send_message cexUser cexReq cexDb (.ok "key") cexUpNoId 5).1.sessions ≠
      cexDb.sessions :=
  ⟨rfl, rfl, by decide⟩

/-- C7 (amended): when the upstream session-creation call fails
(transport error, non-success status, or a body with no truthy id),
`send_message` surfaces a 502 gateway failure; the persisted state is
exactly the prior store plus the already-saved user message — no
assistant message and no session-timestamp update — except that when
the request named no session, the chat-session row created before the
upstream call also persists. -/
theorem upstream_create_failure_isolated :
    ∀ u data db dec up now sid db₁,
      apiKeyTruthy u = true →
      resolveSession u data db now = .ok (sid, db₁) →
      createSessionFailed up →
      ∃ e : HErr, e.status = 502 ∧
        send_message u data db (.ok dec) up now =
          (addMessage db₁ sid "user" data.message,
            [AdkCall.createSession ("user_" ++ toString u.id)],
            .error (.http e)) ∧
        db₁.messages = db.messages ∧
        (db₁.sessions = db.sessions ∨
          db₁.sessions = db.sessions ++
            [{ id := db.nextSessionId, userId := u.id,
               title := titleOf data.message, updatedAt := now }]) := by
  intro u data db dec up now sid db₁ hk hres hfail
  have hchar := resolveSession_characterized u data db now sid db₁ hres
  rcases hfail with ⟨msg, hmsg⟩ | ⟨body, hbody⟩ | ⟨sd, hsd, hfalsy⟩
  · exact ⟨err502connect msg, rfl,
      by simp [send_message, hres, hmsg, hk], hchar.1, hchar.2⟩
  · exact ⟨err502backend body, rfl,
      by simp [send_message, hres, hbody, hk], hchar.1, hchar.2⟩
  · exact ⟨err502noId, rfl,
      by simp [send_message, hres, hsd, hk, hfalsy], hchar.1, hchar.2⟩

/-- Witness for C7 at the concrete Scenario E input: upstream returns
a body with no id. -/
theorem upstream_create_failure_isolated_witness :
    ∃ e : HErr, e.status = 502 ∧
      send_message cexUser cexReq cexDb (.ok "key") cexUpNoId 5 =
        (addMessage cexDb1 1 "user" "hi",
          [AdkCall.createSession "user_1"], .error (.http e)) ∧
      cexDb1.messages = cexDb.messages ∧
      (cexDb1.sessions = cexDb.sessions ∨
        cexDb1.sessions = cexDb.sessions ++
          [{ id := cexDb.nextSessionId, userId := cexUser.id,
             title := titleOf cexReq.message, updatedAt := 5 }]) :=
  upstream_create_failure_isolated cexUser cexReq cexDb "key" cexUpNoId 5 1 cexDb1
    rfl rfl (Or.inr (Or.inr ⟨[], rfl, rfl⟩))

/-- C8 counterexample: two sends in the same chat thread (the second
names the session the first created) each create a fresh remote ADK
session; the second send submits under the identifier `"s2"` returned
by its own creation call, not under the first send's `"s1"`. -/
theorem fresh_remote_session_cex :
    (send_message cexUser cexReq cexDb (.ok "key") cexUpS1 5).2.2 =
      .ok { response := fallbackMsg, sessionId := 1 } ∧
    (send_message cexUser cexReq2 cexDbAfterFirst (.ok "key") cexUpS2 6).2.1 =
      [AdkCall.createSession "user_1",
        AdkCall.runSse "user_1" (PyVal.str "s2") "more"] ∧
    PyVal.str "s2" ≠ PyVal.str "s1" := by
  refine ⟨rfl, rfl, ?_⟩
  intro h
  injection h with h'
  exact absurd h' (by decide)

/-- C8 (amended): no remote session is ever reused — every send whose
preliminary checks pass performs exactly one ADK session-creation call
followed by one `run_sse` call carrying the identifier that creation
call just returned. -/
theorem fresh_remote_session_per_send :
    ∀ u data db dec up now sid db₁ sessionData,
      apiKeyTruthy u = true →
      resolveSession u data db now = .ok (sid, db₁) →
      up.createSession = .ok sessionData →
      pyTruthy (lookupId sessionData) = true →
      (send_message u data db (.ok dec) up now).2.1 =
        [AdkCall.createSession ("user_" ++ toString u.id),
          AdkCall.runSse ("user_" ++ toString u.id) (lookupId sessionData)
            data.message] := by
  intro u data db dec up now sid db₁ sessionData hk hres hcs hid
  cases hrs : up.runSse with
  | requestError m => simp [send_message, hres, hcs, hrs, hk, hid]
  | statusError b => simp [send_message, hres, hcs, hrs, hk, hid]
  | ok t =>
    cases ha : assemble t <;> simp [send_message, hres, hcs, hrs, ha, hk, hid]

/-- Witness for C8 at a concrete input: the first Scenario send. -/
theorem fresh_remote_session_per_send_witness :
    (send_message cexUser cexReq cexDb (.ok "key") cexUpS1 5).2.1 =
      [AdkCall.createSession "user_1",
        AdkCall.runSse "user_1" (lookupId [("id", PyVal.str "s1")]) "hi"] :=
  fresh_remote_session_per_send cexUser cexReq cexDb "key" cexUpS1 5 1 cexDb1
    [("id", PyVal.str "s1")] rfl rfl rfl rfl

/-- C9 counterexample: the per-user credential travels through the
process-wide `os.environ["GOOGLE_API_KEY"]`; under the interleaving
(A writes, B writes, A sends, B sends) run A's remote send observes
run B's credential — two concurrent runs do share mutable state and
the credential leaks across them. -/
theorem credential_noninterference_cex :
    credLog (fun b => if b then "kB" else "kA") [false, true, false, true] "" =
      [(false, "kB"), (true, "kB")] ∧
    ("kB" : String) ≠ "kA" :=
  ⟨rfl, by decide⟩

/-- C9 (amended): the credential hand-off is the shared environment
variable, so noninterference holds only for schedules that do not
interleave — when each run's write is immediately followed by its own
send (serialized execution), every send observes its own run's
credential, whatever the two credentials are. -/
theorem credential_serialized_noninterference :
    ∀ keys env0,
      credLog keys [false, false, true, true] env0 =
        [(false, keys false), (true, keys true)] ∧
      credLog keys [true, true, false, false] env0 =
        [(true, keys true), (false, keys false)] :=
  fun _ _ => ⟨rfl, rfl⟩

/-- C10 counterexample: a caller with no stored API key who names a
session owned by another user is rejected with 400 (the API-key
precondition), not with the claimed 404 — though still with no state
change. -/
theorem ownership_check_cex :
    foreignDb.sessions = [{ id := 7, userId := 2, title := "t", updatedAt := 0 }] ∧
    keylessUser.id = 1 ∧
    (send_message keylessUser { sessionId := Option.some 7, message := "hi" }
        foreignDb (.ok "k") cexUpS1 0).2.2 = .error (.http err400key) ∧
    err400key.status ≠ 404 ∧
    (send_message keylessUser { sessionId := Option.some 7, message := "hi" }
        foreignDb (.ok "k") cexUpS1 0).1 = foreignDb :=
  ⟨rfl, rfl, rfl, by decide, rfl⟩

/-- C10 (amended): for every request naming an existing session whose
owner differs from the caller, `delete_session` and `get_messages`
fail with 404 "Session not found" and leave the store untouched, and
so does `send_message` provided the caller has a stored API key (a
keyless caller is rejected earlier with 400, likewise without any
state change); in all cases the ownership check precedes any state
change. -/
theorem ownership_check_precedes :
    ∀ db (u : User) sid row,
      row ∈ db.sessions → row.id = sid →
      (∀ r ∈ db.sessions, r.id = sid → r.userId ≠ u.id) →
      delete_session sid u db = (db, .error err404) ∧
      get_messages sid u db = .error err404 ∧
      (apiKeyTruthy u = true → sid ≠ 0 →
        ∀ msg dec up now,
          send_message u { sessionId := Option.some sid, message := msg } db
              dec up now =
            (db, [], .error (.http err404))) := by
  intro db u sid row hrow hid hnotown
  have hany : db.sessions.any (fun r => r.id = sid && r.userId = u.id) = false := by
    rw [List.any_eq_false]
    intro r hr
    by_cases h1 : r.id = sid
    · simp [h1, hnotown r hr h1]
    · simp [h1]
  refine ⟨?_, ?_, ?_⟩
  · unfold delete_session
    rw [hany]
    rfl
  · unfold get_messages
    rw [hany]
    rfl
  · intro hk h0 msg dec up now
    have hres : resolveSession u { sessionId := Option.some sid, message := msg }
        db now = .error err404 := by
      simp [resolveSession, truthySessionId, h0, hany]
    simp [send_message, hres, hk]

/-- Witness for C10 at a concrete input: caller 1 (with a key) naming
session 7, which belongs to user 2. -/
theorem ownership_check_precedes_witness :
    delete_session 7 cexUser foreignDb = (foreignDb, .error err404) ∧
    get_messages 7 cexUser foreignDb = .error err404 ∧
    (apiKeyTruthy cexUser = true → (7 : Nat) ≠ 0 →
      ∀ msg dec up now,
        send_message cexUser { sessionId := Option.some 7, message := msg }
            foreignDb dec up now =
          (foreignDb, [], .error (.http err404))) :=
  ownership_check_precedes foreignDb cexUser 7
    { id := 7, userId := 2, title := "t", updatedAt := 0 }
    (by decide) rfl (by decide)

end StudyPlanner
